import Mathlib

/-
Verification of the call-signaling, token-endpoint and session-orchestration
code of this repository, as a shallow embedding in Lean 4.

Embedding conventions:
- Timestamps are milliseconds as Nat (Date.now, serverTimestamp).
- Firestore updateDoc patches are modelled as functions on the CallInvite
  record that overwrite exactly the patched fields.
- JavaScript string comparison (the default Array.sort comparator) is
  modelled as lexicographic comparison of the code-unit sequences of the
  two strings, via charListLt on String.data.
- React component state is a VCState record. An event handler closure reads
  the state snapshot of the render that created it; setX calls made while it
  runs do not change the values the closure already read. The handlers below
  therefore take the snapshot as input and return the updated state.
- JavaScript truthiness on optional strings: undefined and the empty string
  are falsy (jsFalsy).
-/

/-- Status enum of a call invite (CallInvite.status in the signaling service). -/
inductive CallStatus where
  | ringing
  | accepted
  | ended
deriving DecidableEq, Repr

/-- The CallInvite document of the signaling service. -/
structure CallInvite where
  id : String
  roomId : String
  callerId : String
  callerName : String
  calleeId : String
  calleeName : String
  status : CallStatus
  createdAt : Nat
  updatedAt : Nat
deriving DecidableEq, Repr

/-- Lexicographic comparison of two code-unit sequences, the order the default
JavaScript Array.sort comparator applies to strings. -/
def charListLt : List Char → List Char → Bool
  | _, [] => false
  | [], _ :: _ => true
  | a :: as, b :: bs =>
    if a.toNat < b.toNat then true
    else if b.toNat < a.toNat then false
    else charListLt as bs

/-- JavaScript string comparison a less-than b, on the underlying character data. -/
def jsStringLt (a b : String) : Bool := charListLt a.data b.data

/-- Room identifier: the source computes [callerId, calleeId].sort().join(with the
underscore separator). For two elements, the stable default sort swaps them exactly
when the second compares below the first. -/
def roomName (a b : String) : String :=
  if jsStringLt b a then b ++ "_" ++ a else a ++ "_" ++ b

/-- Parameter record of CallService.createCall. -/
structure CreateCallParams where
  callerId : String
  callerName : String
  calleeId : String
  calleeName : String
deriving DecidableEq, Repr

/-- The CallInvite document persisted by CallService.createCall: roomId from
roomName, status ringing, both timestamps set to the server time. The fresh
document id assigned by the store is passed in as newId. -/
def createCallInvite (p : CreateCallParams) (newId : String) (now : Nat) : CallInvite :=
  { id := newId
    roomId := roomName p.callerId p.calleeId
    callerId := p.callerId
    callerName := p.callerName
    calleeId := p.calleeId
    calleeName := p.calleeName
    status := CallStatus.ringing
    createdAt := now
    updatedAt := now }

/-- Return value of CallService.createCall: the pair of callId and roomId. -/
def createCallResult (p : CreateCallParams) (newId : String) : String × String :=
  (newId, roomName p.callerId p.calleeId)

/-- CallService.acceptCall: updateDoc with the patch setting status to accepted
and updatedAt to the server time. No other field is mentioned in the patch and
no precondition is checked. -/
def acceptCallPatch (inv : CallInvite) (now : Nat) : CallInvite :=
  { inv with status := CallStatus.accepted, updatedAt := now }

/-- CallService.endCall: updateDoc with the patch setting status to ended
and updatedAt to the server time. No other field is mentioned in the patch and
no precondition is checked. -/
def endCallPatch (inv : CallInvite) (now : Nat) : CallInvite :=
  { inv with status := CallStatus.ended, updatedAt := now }

/-- A transition request against one invite: acceptCall or endCall at a given time. -/
inductive CallOp where
  | acceptOp (now : Nat)
  | endOp (now : Nat)
deriving DecidableEq, Repr

/-- Apply one transition request to an invite document. -/
def applyOp (inv : CallInvite) : CallOp → CallInvite
  | CallOp.acceptOp now => acceptCallPatch inv now
  | CallOp.endOp now => endCallPatch inv now

/-- Apply a sequence of transition requests in order. -/
def applyOps (inv : CallInvite) (ops : List CallOp) : CallInvite :=
  ops.foldl applyOp inv

/-- JavaScript truthiness test used by the token endpoint on destructured JSON
fields and on environment variables: absent and empty strings are falsy. -/
def jsFalsy : Option String → Bool
  | none => true
  | some s => s.data.isEmpty

/-- Body of the POST request to the token endpoint; each field may be absent. -/
structure TokenRequest where
  roomName : Option String
  participantName : Option String
  participantIdentity : Option String
deriving DecidableEq, Repr

/-- Server-side environment configuration read by the endpoint. -/
structure LiveKitEnv where
  apiKey : Option String
  apiSecret : Option String
deriving DecidableEq, Repr

/-- JSON body of the endpoint response: either an error object or a token object. -/
inductive TokenBody where
  | errorBody (msg : String)
  | tokenBody (token : String)
deriving DecidableEq, Repr

/-- HTTP response of the token endpoint. -/
structure TokenResponse where
  status : Nat
  body : TokenBody
deriving DecidableEq, Repr

/-- Abstract stand-in for the external SDK call chain AccessToken / addGrant /
toJwt. The SDK is an external collaborator; the claims never inspect the token
value, only that a token body is returned, so the JWT is modelled as an opaque
function of the inputs the source feeds it. -/
def accessTokenJwt (apiKey apiSecret identity name room : String) : String :=
  apiKey ++ "." ++ apiSecret ++ "." ++ identity ++ "." ++ name ++ "." ++ room

/-- Guard of the 400 branch: roomName or participantIdentity missing. -/
def requiredMissing (req : TokenRequest) : Bool :=
  jsFalsy req.roomName || jsFalsy req.participantIdentity

/-- Guard of the 500 branch: either LiveKit credential absent from the environment. -/
def credsMissing (env : LiveKitEnv) : Bool :=
  jsFalsy env.apiKey || jsFalsy env.apiSecret

/-- The POST handler of the token endpoint: 400 when a required field is falsy,
500 when a credential is not configured, otherwise a token body built with the
identity and the display name falling back to the identity. -/
def POST (req : TokenRequest) (env : LiveKitEnv) : TokenResponse :=
  if requiredMissing req then
    { status := 400, body := TokenBody.errorBody "roomName and participantIdentity are required" }
  else if credsMissing env then
    { status := 500, body := TokenBody.errorBody "Server configuration error - LiveKit credentials not set" }
  else
    let identity := req.participantIdentity.getD ""
    let name := if jsFalsy req.participantName then identity else req.participantName.getD ""
    { status := 200
      body := TokenBody.tokenBody
        (accessTokenJwt (env.apiKey.getD "") (env.apiSecret.getD "") identity name
          (req.roomName.getD "")) }

/-- Test for an error body. -/
def isErrorBody : TokenBody → Bool
  | TokenBody.errorBody _ => true
  | TokenBody.tokenBody _ => false

/-- Test for a token body. -/
def isTokenBody : TokenBody → Bool
  | TokenBody.errorBody _ => false
  | TokenBody.tokenBody _ => true

/-- A recorded media chunk: its byte size and a sequence tag identifying it. -/
structure Chunk where
  size : Nat
  seq : Nat
deriving DecidableEq, Repr

/-- The ondataavailable handler of the recorder: append the delivered chunk to
the accumulated list exactly when its size is positive. -/
def ondataavailable (prev : List Chunk) (c : Chunk) : List Chunk :=
  if 0 < c.size then prev ++ [c] else prev

/-- State of a MediaRecorder instance. -/
inductive RecorderState where
  | inactive
  | recording
  | paused
deriving DecidableEq, Repr

/-- A MediaRecorder instance: an identity tag and its state. -/
structure MediaRecorderModel where
  rid : Nat
  state : RecorderState
deriving DecidableEq, Repr

/-- The record passed to addSessionHistory. -/
structure SessionHistoryEntry where
  partnerId : String
  partnerUsername : String
  duration : Nat
  timestamp : Nat
  connectionFee : Nat
  wasRecorded : Bool
deriving DecidableEq, Repr

/-- Props of the VideoChatLiveKit component that the handlers read. -/
structure VCProps where
  partnerId : String
  partnerName : String
  connectionFee : Nat
deriving DecidableEq, Repr

/-- State of one VideoChatLiveKit component instance: the useState fields the
claims depend on, the startTime ref, the local stream ref, a counter issuing
recorder identities, and the list of persisted history entries. -/
structure VCState where
  startTime : Nat
  callDuration : Nat
  isRecording : Bool
  showRecordingSettings : Bool
  mediaRecorder : Option MediaRecorderModel
  recordedChunks : List Chunk
  hasLocalStream : Bool
  nextRecorderId : Nat
  history : List SessionHistoryEntry
deriving DecidableEq, Repr

/-- startRecording: returns unchanged when no local stream is captured;
otherwise creates a fresh recorder, starts it, stores it, sets isRecording and
resets the chunk list. The source checks nothing else before doing so. -/
def startRecording (s : VCState) : VCState :=
  if s.hasLocalStream then
    { s with
      mediaRecorder := some { rid := s.nextRecorderId, state := RecorderState.recording }
      isRecording := true
      recordedChunks := [] }
  else s

/-- stopRecording: when a recorder is stored and its state is recording,
request its stop and clear isRecording, the stored recorder and the settings
modal; otherwise do nothing. -/
def stopRecording (s : VCState) : VCState :=
  match s.mediaRecorder with
  | some r =>
    if r.state = RecorderState.recording then
      { s with
        isRecording := false
        mediaRecorder := none
        showRecordingSettings := false }
    else s
  | none => s

/-- One firing of the one-second interval: callDuration is set to the floor of
the elapsed wall-clock milliseconds divided by 1000. -/
def durationTick (s : VCState) (now : Nat) : VCState :=
  { s with callDuration := (now - s.startTime) / 1000 }

/-- The history record built by handleEndCall, from the snapshot the closure
read: duration is the tick-sampled callDuration state and wasRecorded is the
snapshot value of isRecording. -/
def endCallEntry (p : VCProps) (snap : VCState) (now : Nat) : SessionHistoryEntry :=
  { partnerId := p.partnerId
    partnerUsername := p.partnerName
    duration := snap.callDuration
    timestamp := now
    connectionFee := p.connectionFee
    wasRecorded := snap.isRecording }

/-- handleEndCall: stop the recording when the snapshot shows one active, then
append the history entry built from the snapshot. The entry uses the snapshot
values because the closure captured them before stopRecording ran. -/
def handleEndCall (p : VCProps) (snap : VCState) (now : Nat) : VCState :=
  let s1 := if snap.isRecording then stopRecording snap else snap
  { s1 with history := s1.history ++ [endCallEntry p snap now] }

/-- The history record built by handleDisconnect: duration recomputed from the
wall clock and wasRecorded hard-coded to false. -/
def disconnectEntry (p : VCProps) (s : VCState) (now : Nat) : SessionHistoryEntry :=
  { partnerId := p.partnerId
    partnerUsername := p.partnerName
    duration := (now - s.startTime) / 1000
    timestamp := now
    connectionFee := p.connectionFee
    wasRecorded := false }

/-- handleDisconnect: unconditionally append its history entry. -/
def handleDisconnect (p : VCProps) (s : VCState) (now : Nat) : VCState :=
  { s with history := s.history ++ [disconnectEntry p s now] }

/-- Observable events of one termination, in the order they are initiated. -/
inductive CallEvt where
  | stopRequested (rid : Nat)
  | historyWrite (entry : SessionHistoryEntry)
  | endNotify
  | blobAssembled
  | uploadAttempt
  | recordingRegistered
deriving DecidableEq, Repr

/-- Whether a recorder is stored and in the recording state, the guard of
stopRecording. -/
def recorderActive (s : VCState) : Bool :=
  match s.mediaRecorder with
  | some r =>
    match r.state with
    | RecorderState.recording => true
    | _ => false
  | none => false

/-- Events emitted by the onstop handler of the recorder: assemble the blob,
attempt the upload, register the recording metadata. -/
def onstopEvts : List CallEvt :=
  [CallEvt.blobAssembled, CallEvt.uploadAttempt, CallEvt.recordingRegistered]

/-- Event trace of one handleEndCall invocation. MediaRecorder.stop only
requests the stop and returns; the onstop handler fires as a separately queued
task, so the body of handleEndCall, including the addSessionHistory call and
the onEndCall notification, runs before the onstop events. The queued onstop
events are therefore appended after the synchronous events of the handler. -/
def handleEndCallTrace (p : VCProps) (snap : VCState) (now : Nat) : List CallEvt :=
  let stops := snap.isRecording && recorderActive snap
  let syncEvts :=
    (if stops then
      [CallEvt.stopRequested ((snap.mediaRecorder.map MediaRecorderModel.rid).getD 0)]
     else [])
      ++ [CallEvt.historyWrite (endCallEntry p snap now), CallEvt.endNotify]
  let queuedEvts := if stops then onstopEvts else []
  syncEvts ++ queuedEvts

/-- Test for the history-write event. -/
def isHistoryWriteEvt : CallEvt → Bool
  | CallEvt.historyWrite _ => true
  | _ => false

/-- Test for the upload-attempt event. -/
def isUploadEvt : CallEvt → Bool
  | CallEvt.uploadAttempt => true
  | _ => false

/-- Sample props: partner u2 named Bella, connection fee 5. -/
def sampleProps : VCProps :=
  { partnerId := "u2", partnerName := "Bella", connectionFee := 5 }

/-- Sample invite already in the terminal ended status. -/
def sampleEndedInvite : CallInvite :=
  { id := "call1"
    roomId := "u1_u2"
    callerId := "u1"
    callerName := "Ann"
    calleeId := "u2"
    calleeName := "Bella"
    status := CallStatus.ended
    createdAt := 1000
    updatedAt := 2000 }

/-- Sample component state with an active recording: recorder 0 is recording
and one non-empty chunk has accumulated. -/
def recordingState : VCState :=
  { startTime := 0
    callDuration := 4
    isRecording := true
    showRecordingSettings := false
    mediaRecorder := some { rid := 0, state := RecorderState.recording }
    recordedChunks := [{ size := 3, seq := 0 }]
    hasLocalStream := true
    nextRecorderId := 1
    history := [] }

/-- Sample component state with no recording and no tick fired yet. -/
def idleState : VCState :=
  { startTime := 0
    callDuration := 0
    isRecording := false
    showRecordingSettings := false
    mediaRecorder := none
    recordedChunks := []
    hasLocalStream := true
    nextRecorderId := 0
    history := [] }

/-- Sample component state with no captured local stream. -/
def noStreamState : VCState :=
  { startTime := 0
    callDuration := 0
    isRecording := false
    showRecordingSettings := false
    mediaRecorder := none
    recordedChunks := []
    hasLocalStream := false
    nextRecorderId := 0
    history := [] }

/-- Sample well-formed token request. -/
def goodReq : TokenRequest :=
  { roomName := some "u1_u2", participantName := some "Ann", participantIdentity := some "u1" }

/-- Sample token request with every field absent. -/
def emptyReq : TokenRequest :=
  { roomName := none, participantName := none, participantIdentity := none }

/-- Sample environment with both credentials configured. -/
def goodEnv : LiveKitEnv :=
  { apiKey := some "key", apiSecret := some "secret" }

/-- Sample environment with no credentials configured. -/
def emptyEnv : LiveKitEnv :=
  { apiKey := none, apiSecret := none }

theorem charListLt_asymm :
    ∀ as bs, charListLt as bs = true → charListLt bs as = false := by
  intro as
  induction as with
  | nil =>
    intro bs h
    cases bs with
    | nil => simp [charListLt] at h
    | cons b bs => simp [charListLt]
  | cons a as ih =>
    intro bs h
    cases bs with
    | nil => simp [charListLt] at h
    | cons b bs =>
      simp only [charListLt] at h ⊢
      by_cases hab : a.toNat < b.toNat
      · have hba : ¬ b.toNat < a.toNat := Nat.lt_asymm hab
        simp [hab, hba]
      · by_cases hba : b.toNat < a.toNat
        · simp [hab, hba] at h
        · simp [hab, hba] at h ⊢
          exact ih bs h

theorem charListLt_antisymm :
    ∀ as bs, charListLt as bs = false → charListLt bs as = false → as = bs := by
  intro as
  induction as with
  | nil =>
    intro bs h1 _
    cases bs with
    | nil => rfl
    | cons b bs => simp [charListLt] at h1
  | cons a as ih =>
    intro bs h1 h2
    cases bs with
    | nil => simp [charListLt] at h2
    | cons b bs =>
      simp only [charListLt] at h1 h2
      by_cases hab : a.toNat < b.toNat
      · simp [hab] at h1
      · by_cases hba : b.toNat < a.toNat
        · simp [hba] at h2
        · simp [hab, hba] at h1 h2
          have hval : a = b := Char.eq_of_val_eq (by
            have hnat : a.toNat = b.toNat :=
              Nat.le_antisymm (Nat.not_lt.mp hba) (Nat.not_lt.mp hab)
            exact UInt32.eq_of_val_eq (Fin.ext hnat))
          rw [hval, ih bs h1 h2]

theorem roomName_comm (a b : String) : roomName a b = roomName b a := by
  unfold roomName
  by_cases h1 : jsStringLt b a
  · have h2 : jsStringLt a b = false := charListLt_asymm b.data a.data h1
    simp [h1, h2]
  · by_cases h2 : jsStringLt a b
    · simp [h1, h2]
    · have hd : a.data = b.data :=
        charListLt_antisymm a.data b.data
          (by simpa [jsStringLt] using h2) (by simpa [jsStringLt] using h1)
      have : a = b := String.ext hd
      simp [this]

theorem stopRecording_history (s : VCState) : (stopRecording s).history = s.history := by
  unfold stopRecording
  cases s.mediaRecorder with
  | none => rfl
  | some r =>
    by_cases h : r.state = RecorderState.recording
    · simp [h]
    · simp [h]

theorem applyOp_status_ne_ringing (inv : CallInvite) (op : CallOp) :
    (applyOp inv op).status ≠ CallStatus.ringing := by
  cases op with
  | acceptOp now => simp [applyOp, acceptCallPatch]
  | endOp now => simp [applyOp, endCallPatch]

/-- C1 counterexample: the claim states that acceptCall on an invite whose
status is already ended is rejected with InvalidTransition and leaves the
status unchanged; on the concrete ended invite the code instead transitions
the status backward to accepted. -/
theorem C1_claim_false :
    sampleEndedInvite.status = CallStatus.ended ∧
    (acceptCallPatch sampleEndedInvite 3000).status = CallStatus.accepted :=
  ⟨rfl, rfl⟩

/-- C1 amended: acceptCall unconditionally sets the status to accepted and
endCall unconditionally sets it to ended, with no transition validation and no
InvalidTransition rejection, so the backward move ended to accepted is
performed; but since neither operation ever writes ringing, no sequence of
accept and end transitions visits ringing after the status has left ringing. -/
theorem C1_transitions :
    (∀ inv now, (acceptCallPatch inv now).status = CallStatus.accepted ∧
      (endCallPatch inv now).status = CallStatus.ended) ∧
    (∀ inv ops, inv.status ≠ CallStatus.ringing →
      (applyOps inv ops).status ≠ CallStatus.ringing) := by
  constructor
  · intro inv now
    exact ⟨rfl, rfl⟩
  · intro inv ops
    induction ops generalizing inv with
    | nil => intro h; exact h
    | cons op ops ih =>
      intro _
      have hstep : (applyOp inv op).status ≠ CallStatus.ringing :=
        applyOp_status_ne_ringing inv op
      simpa [applyOps, List.foldl] using ih (applyOp inv op) hstep

/-- C1 witness: the amended theorem applied to the concrete ended invite and a
concrete accept-then-end sequence. -/
theorem C1_transitions_witness :
    (applyOps sampleEndedInvite [CallOp.acceptOp 5, CallOp.endOp 6]).status ≠
      CallStatus.ringing :=
  C1_transitions.2 sampleEndedInvite [CallOp.acceptOp 5, CallOp.endOp 6] (by decide)

/-- C9: acceptCall and endCall patch only status and updatedAt; every other
CallInvite field is left unchanged by both operations. -/
theorem C9_patch_frame :
    ∀ inv now,
      ((acceptCallPatch inv now).id = inv.id ∧
       (acceptCallPatch inv now).roomId = inv.roomId ∧
       (acceptCallPatch inv now).callerId = inv.callerId ∧
       (acceptCallPatch inv now).callerName = inv.callerName ∧
       (acceptCallPatch inv now).calleeId = inv.calleeId ∧
       (acceptCallPatch inv now).calleeName = inv.calleeName ∧
       (acceptCallPatch inv now).createdAt = inv.createdAt) ∧
      ((endCallPatch inv now).id = inv.id ∧
       (endCallPatch inv now).roomId = inv.roomId ∧
       (endCallPatch inv now).callerId = inv.callerId ∧
       (endCallPatch inv now).callerName = inv.callerName ∧
       (endCallPatch inv now).calleeId = inv.calleeId ∧
       (endCallPatch inv now).calleeName = inv.calleeName ∧
       (endCallPatch inv now).createdAt = inv.createdAt) := by
  intro inv now
  exact ⟨⟨rfl, rfl, rfl, rfl, rfl, rfl, rfl⟩, ⟨rfl, rfl, rfl, rfl, rfl, rfl, rfl⟩⟩

/-- C4: the room identifier is order-independent for all identity pairs, and
createCall for caller u1 and callee u2 returns roomId u1_u2, both on the
returned pair and on the persisted invite document. -/
theorem C4_roomName_comm :
    (∀ a b, roomName a b = roomName b a) ∧
    (createCallResult
      { callerId := "u1", callerName := "Ann", calleeId := "u2", calleeName := "Bella" }
      "call1").2 = "u1_u2" ∧
    (createCallInvite
      { callerId := "u1", callerName := "Ann", calleeId := "u2", calleeName := "Bella" }
      "call1" 0).roomId = "u1_u2" :=
  ⟨roomName_comm, by decide, by decide⟩

/-- C2 counterexample: the claim states that triggering termination twice by
different paths writes at most one SessionHistoryEntry; on the concrete state
with an empty history, an explicit handleEndCall followed by the transport
handleDisconnect callback writes two entries. -/
theorem C2_claim_false :
    recordingState.history = [] ∧
    ((handleDisconnect sampleProps
        (handleEndCall sampleProps recordingState 9000) 9500).history).length = 2 := by
  constructor
  · rfl
  · rfl

/-- C2 amended: CallService.endCall is idempotent on the invite document, a
second endCall yields the same record as a single endCall at the later time,
in particular the same terminal status ended; but history writing has no
idempotence guard: each termination path appends its own SessionHistoryEntry,
so an explicit end-call followed by the transport-disconnect callback writes
two entries for the same call. -/
theorem C2_termination :
    (∀ inv t1 t2, endCallPatch (endCallPatch inv t1) t2 = endCallPatch inv t2) ∧
    (∀ inv t1 t2, (endCallPatch (endCallPatch inv t1) t2).status =
      (endCallPatch inv t1).status) ∧
    (∀ p s t1 t2,
      ((handleDisconnect p (handleEndCall p s t1) t2).history).length =
        s.history.length + 2) := by
  refine ⟨?_, ?_, ?_⟩
  · intro inv t1 t2
    rfl
  · intro inv t1 t2
    rfl
  · intro p s t1 t2
    have hstop : ((if s.isRecording then stopRecording s else s) : VCState).history =
        s.history := by
      by_cases h : s.isRecording
      · simp [h, stopRecording_history]
      · simp [h]
    simp [handleDisconnect, handleEndCall, hstop]

/-- C5 counterexample: the claim states that the duration of every persisted
entry is computed from the wall-clock span; on the concrete state where no
tick has fired, handleEndCall at 5000 ms persists duration 0 while the
wall-clock span is 5 seconds. -/
theorem C5_claim_false :
    ((handleEndCall sampleProps idleState 5000).history).map
        SessionHistoryEntry.duration = [0] ∧
    (5000 - idleState.startTime) / 1000 = 5 := by
  constructor
  · rfl
  · rfl

/-- C5 amended: only the transport-disconnect path computes the persisted
duration from the wall-clock span between start and end; the explicit end-call
path persists the tick-sampled callDuration state value, which agrees with the
wall-clock span only when a duration tick has run at the ending instant, and
differs from it otherwise. -/
theorem C5_duration :
    (∀ p s now, (disconnectEntry p s now).duration = (now - s.startTime) / 1000) ∧
    (∀ p s now, (endCallEntry p s now).duration = s.callDuration) ∧
    (∀ p s now, (endCallEntry p (durationTick s now) now).duration =
      (now - s.startTime) / 1000) ∧
    (∀ p, ∃ s now, (endCallEntry p s now).duration ≠ (now - s.startTime) / 1000) := by
  refine ⟨?_, ?_, ?_, ?_⟩
  · intro p s now
    rfl
  · intro p s now
    rfl
  · intro p s now
    rfl
  · intro p
    refine ⟨idleState, 5000, ?_⟩
    show idleState.callDuration ≠ (5000 - idleState.startTime) / 1000
    decide

/-- C10: every entry written by the transport-disconnect path has wasRecorded
false regardless of the recording state, while the explicit end-call path
writes the snapshot isRecording value, which is true on a state with an active
recording. -/
theorem C10_wasRecorded :
    (∀ p s now, (disconnectEntry p s now).wasRecorded = false) ∧
    (∀ p s now, (handleDisconnect p s now).history =
      s.history ++ [disconnectEntry p s now]) ∧
    (∀ p s now, (endCallEntry p s now).wasRecorded = s.isRecording) ∧
    (∀ p now, ∃ s, (endCallEntry p s now).wasRecorded = true) := by
  refine ⟨?_, ?_, ?_, ?_⟩
  · intro p s now
    rfl
  · intro p s now
    rfl
  · intro p s now
    rfl
  · intro p now
    exact ⟨recordingState, rfl⟩

/-- C6 counterexample: the claim states that invoking start while already
recording is a no-op leaving the active recorder and the accumulated chunks
unchanged; on the concrete recording state the code instead stores a fresh
recorder and clears the chunk list. -/
theorem C6_claim_false :
    recordingState.isRecording = true ∧
    (startRecording recordingState).recordedChunks = [] ∧
    recordingState.recordedChunks ≠ [] ∧
    (startRecording recordingState).mediaRecorder ≠ recordingState.mediaRecorder := by
  refine ⟨rfl, rfl, ?_, ?_⟩
  · decide
  · decide

/-- C6 amended: startRecording performs no already-recording check and reports
no AlreadyRecording, an error that does not exist in the code: invoked while a
local stream is present, including while a recording is already active, it
stores a fresh recorder in the recording state, sets isRecording, and resets
the accumulated chunk sequence to empty; it is a no-op exactly when no local
media source is available. -/
theorem C6_startRecording :
    (∀ s, s.hasLocalStream = false → startRecording s = s) ∧
    (∀ s, s.hasLocalStream = true →
      (startRecording s).isRecording = true ∧
      (startRecording s).recordedChunks = [] ∧
      (startRecording s).mediaRecorder =
        some { rid := s.nextRecorderId, state := RecorderState.recording }) := by
  constructor
  · intro s h
    simp [startRecording, h]
  · intro s h
    simp [startRecording, h]

/-- C6 witness: the amended theorem applied to the concrete no-stream state and
to the concrete state with an active recording. -/
theorem C6_startRecording_witness :
    startRecording noStreamState = noStreamState ∧
    (startRecording recordingState).recordedChunks = [] :=
  ⟨C6_startRecording.1 noStreamState rfl,
   (C6_startRecording.2 recordingState rfl).2.1⟩

/-- C7: a delivered chunk is appended to the in-memory sequence exactly when
its size is positive, zero-length chunks are discarded, and a whole delivery
sequence folds to the previous list followed by the non-empty chunks in
capture order. -/
theorem C7_chunk_delivery :
    (∀ prev c, 0 < c.size → ondataavailable prev c = prev ++ [c]) ∧
    (∀ prev c, c.size = 0 → ondataavailable prev c = prev) ∧
    (∀ prev cs, List.foldl ondataavailable prev cs =
      prev ++ cs.filter (fun c => decide (0 < c.size))) := by
  refine ⟨?_, ?_, ?_⟩
  · intro prev c h
    simp [ondataavailable, h]
  · intro prev c h
    simp [ondataavailable, h]
  · intro prev cs
    induction cs generalizing prev with
    | nil => simp
    | cons c cs ih =>
      by_cases h : 0 < c.size
      · simp [ondataavailable, h, ih, List.filter]
      · simp [ondataavailable, h, ih, List.filter]

/-- C7 witness: the delivery handler applied to a concrete non-empty chunk and
a concrete zero-length chunk. -/
theorem C7_chunk_delivery_witness :
    ondataavailable [] { size := 3, seq := 0 } = [{ size := 3, seq := 0 }] ∧
    ondataavailable [{ size := 3, seq := 0 }] { size := 0, seq := 1 } =
      [{ size := 3, seq := 0 }] :=
  ⟨C7_chunk_delivery.1 [] { size := 3, seq := 0 } (by decide),
   C7_chunk_delivery.2.1 [{ size := 3, seq := 0 }] { size := 0, seq := 1 } rfl⟩

/-- C8: the token endpoint answers 400 with an error body when a required field
is missing, 500 with an error body when the credentials are not configured, and
a token body otherwise. -/
theorem C8_token_endpoint :
    ∀ req env,
      (requiredMissing req = true →
        (POST req env).status = 400 ∧ isErrorBody (POST req env).body = true) ∧
      (requiredMissing req = false → credsMissing env = true →
        (POST req env).status = 500 ∧ isErrorBody (POST req env).body = true) ∧
      (requiredMissing req = false → credsMissing env = false →
        isTokenBody (POST req env).body = true) := by
  intro req env
  refine ⟨?_, ?_, ?_⟩
  · intro h
    simp [POST, h, isErrorBody]
  · intro h1 h2
    simp [POST, h1, h2, isErrorBody]
  · intro h1 h2
    simp [POST, h1, h2, isTokenBody]

/-- C8 witness: the endpoint theorem applied to a request with every field
absent, to a well-formed request against an unconfigured environment, and to a
well-formed request against a configured environment. -/
theorem C8_token_endpoint_witness :
    (POST emptyReq goodEnv).status = 400 ∧
    (POST goodReq emptyEnv).status = 500 ∧
    isTokenBody (POST goodReq goodEnv).body = true :=
  ⟨((C8_token_endpoint emptyReq goodEnv).1 rfl).1,
   ((C8_token_endpoint goodReq emptyEnv).2.1 rfl rfl).1,
   (C8_token_endpoint goodReq goodEnv).2.2 rfl rfl⟩

/-- C3: on the concrete termination of a call with an active recording, the
event trace of handleEndCall contains an upload attempt, but the history write
occurs at an earlier position than the upload attempt: MediaRecorder.stop only
requests the stop, the onstop handler with the upload runs as a later queued
task, and the addSessionHistory call inside handleEndCall runs before it, so
the history write races ahead of recording finalization, against the claim. -/
theorem C3_claim_false_at_failing_input :
    (handleEndCallTrace sampleProps recordingState 9000).any isUploadEvt = true ∧
    (handleEndCallTrace sampleProps recordingState 9000).findIdx isHistoryWriteEvt <
      (handleEndCallTrace sampleProps recordingState 9000).findIdx isUploadEvt := by
  constructor
  · rfl
  · decide
